import Mathlib

/-!
Verification of the StatusHub presence-monitoring core: the presence
change-detection engine (`src/discord/mod.rs`), the reminder scheduler,
the persistent status store (`src/state_cache.rs`) and the Steam memory
cache (`src/steam.rs`), embedded shallowly as executable Lean functions.
-/

set_option maxHeartbeats 1600000

namespace StatusHub

/-- Closed status enum from `src/event.rs` (`DiscordStatus`). -/
inductive DiscordStatus
  | online
  | idle
  | dnd
  | offline
  | invisible
  | unknown
deriving DecidableEq, Repr

/-- The `Display` impl for `DiscordStatus` in `src/event.rs`. -/
def DiscordStatus.display : DiscordStatus → String
  | .online => "online"
  | .idle => "idle"
  | .dnd => "dnd"
  | .offline => "offline"
  | .invisible => "invisible"
  | .unknown => "unknown"

/-- The five declared variants of serenity's `OnlineStatus` consumed by
`normalize_status`.  (The upstream enum is non-exhaustive; its hidden
variants all fall into the `_ => Unknown` arm of the source.) -/
inductive OnlineStatus
  | online
  | idle
  | doNotDisturb
  | offline
  | invisible
deriving DecidableEq, Repr

/-- `normalize_status` from `src/discord/mod.rs`. -/
def normalize_status : OnlineStatus → DiscordStatus
  | .online => .online
  | .idle => .idle
  | .doNotDisturb => .dnd
  | .offline => .offline
  | .invisible => .invisible

/-- `DiscordActivityContext` from `src/event.rs`. -/
structure DiscordActivityContext where
  name : String
  details : Option String
  state : Option String
  steam_app_id : Option Nat
deriving DecidableEq, Repr

/-- `ReminderContext` from `src/event.rs`. -/
structure ReminderContext where
  elapsed_seconds : Nat
  interval_seconds : Nat
  sequence : Nat
deriving DecidableEq, Repr

/-- `DiscordStatusChangedEvent` from `src/event.rs`.  `observed_at`
carries the `Utc::now()` timestamp taken at construction time (passed
explicitly in this pure embedding). -/
structure DiscordStatusChangedEvent where
  source : String
  user_id : Nat
  guild_id : Option Nat
  previous_status : Option DiscordStatus
  current_status : DiscordStatus
  activity : Option DiscordActivityContext
  reminder : Option ReminderContext
  observed_at : Int
deriving DecidableEq, Repr

/-- `DiscordStatusChangedEvent::new` from `src/event.rs`, with the
`Utc::now()` observation time passed as `now`. -/
def DiscordStatusChangedEvent.new (user_id : Nat) (guild_id : Option Nat)
    (previous_status : Option DiscordStatus) (current_status : DiscordStatus)
    (activity : Option DiscordActivityContext) (reminder : Option ReminderContext)
    (now : Int) : DiscordStatusChangedEvent :=
  { source := "discord.status"
    user_id := user_id
    guild_id := guild_id
    previous_status := previous_status
    current_status := current_status
    activity := activity
    reminder := reminder
    observed_at := now }

/-- Modelled from the spec: `ReminderSettings` lives in `src/config.rs`
of the repository, which is not shipped under `src/`; its fields are
taken from the constructor used by the tests in `src/discord/mod.rs`
(`enabled`, `interval_minutes`, `steam_only`, `check_interval_seconds`). -/
structure ReminderSettings where
  enabled : Bool
  interval_minutes : Nat
  steam_only : Bool
  check_interval_seconds : Nat
deriving DecidableEq, Repr

/-- Modelled from the spec: `ReminderSettings::interval_seconds` is
missing from `src/`; per the spec, "reminders fire every N minutes"
while ticks are checked on an independent cadence, so the reminder
interval in seconds is the configured minutes times 60. -/
def ReminderSettings.interval_seconds (r : ReminderSettings) : Nat :=
  r.interval_minutes * 60

/-- `ReminderAnchor` from `src/discord/mod.rs`. -/
structure ReminderAnchor where
  key : String
  started_at_unix : Int
  last_sequence : Nat
deriving DecidableEq, Repr

/-- `RuntimePresenceState` from `src/discord/mod.rs`. -/
structure RuntimePresenceState where
  current_status : Option DiscordStatus
  current_guild_id : Option Nat
  current_activity : Option DiscordActivityContext
  current_activity_fingerprint : Option String
  reminder_anchor : Option ReminderAnchor
deriving DecidableEq, Repr

/-- The configuration fields of `PresenceEventHandler` from
`src/discord/mod.rs` (the channel, lock and cache handles are the
effectful plumbing; the decision logic only reads these fields). -/
structure PresenceEventHandler where
  target_user_id : Nat
  target_guild_id : Option Nat
  emit_initial_status : Bool
  emit_on_activity_change : Bool
  rich_presence_only : Bool
  reminder : ReminderSettings
deriving DecidableEq, Repr

/-- `should_emit_presence_event` from `src/discord/mod.rs`. -/
def should_emit_presence_event (status_changed activity_changed emit_on_activity_change
    rich_presence_only has_activity emit_initial_status has_previous_status : Bool) : Bool :=
  let trigger_change :=
    if rich_presence_only then
      emit_on_activity_change && activity_changed && has_activity
    else
      status_changed || (emit_on_activity_change && activity_changed)
  trigger_change && (emit_initial_status || has_previous_status)

/-- `reminder_anchor_key` from `src/discord/mod.rs`.  `u32` app ids are
rendered with the same decimal `Display` as `Nat.repr`. -/
def reminder_anchor_key (reminder : ReminderSettings) (rich_presence_only : Bool)
    (status : DiscordStatus) (activity : Option DiscordActivityContext) : Option String :=
  if !reminder.enabled then
    none
  else if rich_presence_only && activity.isNone then
    none
  else if reminder.steam_only then
    (activity.bind (fun a => a.steam_app_id)).map
      (fun app_id => "steam:" ++ toString app_id ++ ":" ++ status.display)
  else
    some ("status:" ++ status.display)

/-- `build_initial_runtime_state` from `src/discord/mod.rs`, with the
`Utc::now().timestamp()` taken at process start passed as `now`. -/
def build_initial_runtime_state (initial_status : Option DiscordStatus)
    (rich_presence_only : Bool) (reminder : ReminderSettings) (now : Int) :
    RuntimePresenceState :=
  let reminder_anchor :=
    if reminder.enabled && !reminder.steam_only && !rich_presence_only then
      initial_status.map (fun status =>
        { key := "status:" ++ status.display
          started_at_unix := now
          last_sequence := 0 : ReminderAnchor })
    else
      none
  { current_status := initial_status
    current_guild_id := none
    current_activity := none
    current_activity_fingerprint := none
    reminder_anchor := reminder_anchor }

/-- The `status_changed` comparison computed inside
`PresenceEventHandler::handle_presence_update` (`previous != Some(next_status)`). -/
def status_changed_flag (previous : Option DiscordStatus) (next_status : DiscordStatus) : Bool :=
  decide (previous ≠ some next_status)

/-- The `activity_changed` comparison computed inside
`PresenceEventHandler::handle_presence_update`
(`map(|v| v != &fp).unwrap_or(!fp.is_empty())`). -/
def activity_changed_flag (previous_fingerprint : Option String) (fingerprint : String) : Bool :=
  match previous_fingerprint with
  | some v => decide (v ≠ fingerprint)
  | none => !fingerprint.isEmpty

/-- The observable outcome of one `handle_presence_update` call: the new
runtime state, the event sent to the channel (if any), and whether
`persist_status` was invoked. -/
structure HandleResult where
  state : RuntimePresenceState
  event : Option DiscordStatusChangedEvent
  persisted : Bool
deriving DecidableEq, Repr

/-- `PresenceEventHandler::handle_presence_update` from
`src/discord/mod.rs`, as a pure state transformer.  `now` is the
`Utc::now()` read at the top of the call.  The early `return` for a
first observation with `emit_initial_status` disabled and the
`!should_emit` return are both rendered as producing no event; the
persistence write-through fires exactly when `status_changed`. -/
def handle_presence_update (h : PresenceEventHandler) (state : RuntimePresenceState)
    (guild_id : Option Nat) (raw_status : OnlineStatus)
    (activity : Option DiscordActivityContext) (activity_fingerprint : String)
    (now : Int) : HandleResult :=
  let next_status := normalize_status raw_status
  let has_activity := !activity_fingerprint.isEmpty
  let previous := state.current_status
  let status_changed := status_changed_flag previous next_status
  let activity_changed := activity_changed_flag state.current_activity_fingerprint activity_fingerprint
  let next_anchor_key :=
    reminder_anchor_key h.reminder h.rich_presence_only next_status activity
  let current_anchor_key := state.reminder_anchor.map (fun anchor => anchor.key)
  let reminder_anchor :=
    if current_anchor_key ≠ next_anchor_key then
      next_anchor_key.map (fun key =>
        { key := key, started_at_unix := now, last_sequence := 0 : ReminderAnchor })
    else
      state.reminder_anchor
  let state' : RuntimePresenceState :=
    { current_status := some next_status
      current_guild_id := guild_id
      current_activity := activity
      current_activity_fingerprint := some activity_fingerprint
      reminder_anchor := reminder_anchor }
  let should_emit := should_emit_presence_event status_changed activity_changed
      h.emit_on_activity_change h.rich_presence_only has_activity
      h.emit_initial_status previous.isSome
  let event :=
    if previous.isNone && !h.emit_initial_status then
      none
    else if !should_emit then
      none
    else
      some (DiscordStatusChangedEvent.new h.target_user_id guild_id previous next_status
        activity none now)
  { state := state', event := event, persisted := status_changed }

/-- The variants of serenity's `ActivityType` with their derived `Debug`
renderings (used by `build_activity_fingerprint`). -/
inductive ActivityType
  | playing
  | streaming
  | listening
  | watching
  | custom
  | competing
  | unknownKind (v : Nat)
deriving DecidableEq, Repr

/-- Derived `Debug` formatting of `ActivityType` (the `{:?}` used in the
fingerprint parts). -/
def ActivityType.debugFmt : ActivityType → String
  | .playing => "Playing"
  | .streaming => "Streaming"
  | .listening => "Listening"
  | .watching => "Watching"
  | .custom => "Custom"
  | .competing => "Competing"
  | .unknownKind v => "Unknown(" ++ toString v ++ ")"

/-- The `assets` fields of a serenity `Activity` read by the source
(`large_image`, `small_image`). -/
structure ActivityAssets where
  large_image : Option String
  small_image : Option String
deriving DecidableEq, Repr

/-- The fields of a serenity `Activity` read by
`extract_activity_context`, `build_activity_fingerprint`,
`pick_primary_activity` and `extract_steam_app_id`. -/
structure Activity where
  kind : ActivityType
  name : String
  details : Option String
  state : Option String
  application_id : Option Nat
  assets : Option ActivityAssets
deriving DecidableEq, Repr

/-- Rust's `char::escape_debug` used by `{:?}` on strings, modelled for
the escapes it performs on printable text (quote, backslash and the
common control characters; other characters print verbatim). -/
def escapeDebugChar (c : Char) : String :=
  if c = '"' then "\\\""
  else if c = '\\' then "\\\\"
  else if c = '\n' then "\\n"
  else if c = '\t' then "\\t"
  else if c = '\x0d' then "\\r"
  else String.singleton c

/-- Derived `Debug` formatting of a Rust `String`: the escaped text
between double quotes. -/
def debugStringFmt (s : String) : String :=
  "\"" ++ String.join (s.data.map escapeDebugChar) ++ "\""

/-- Derived `Debug` formatting of `Option<String>` (`None` or
`Some("...")`). -/
def debugOptStringFmt : Option String → String
  | none => "None"
  | some s => "Some(" ++ debugStringFmt s ++ ")"

/-- Derived `Debug` formatting of `Option<u64>` (`None` or `Some(n)`). -/
def debugOptNatFmt : Option Nat → String
  | none => "None"
  | some n => "Some(" ++ toString n ++ ")"

/-- The `large_image`/`small_image` accessors used in the fingerprint:
`assets.and_then(|a| a.large_image.as_deref()).unwrap_or("-")`. -/
def largeImageOrDash (a : Activity) : String :=
  ((a.assets.bind (fun x => x.large_image)).getD "-")

/-- Companion accessor for `small_image`. -/
def smallImageOrDash (a : Activity) : String :=
  ((a.assets.bind (fun x => x.small_image)).getD "-")

/-- One `parts` element pushed by `build_activity_fingerprint`, the
format string being `{:?}|{}|{:?}|{:?}|{:?}|{}|{}` applied to
kind, name, details, state, app_id, large, small. -/
def activity_fingerprint_part (a : Activity) : String :=
  a.kind.debugFmt ++ "|" ++ a.name ++ "|" ++ debugOptStringFmt a.details ++ "|" ++
    debugOptStringFmt a.state ++ "|" ++ debugOptNatFmt a.application_id ++ "|" ++
    largeImageOrDash a ++ "|" ++ smallImageOrDash a

/-- Rust's `Vec::join(sep)`: the elements concatenated with `sep`
between consecutive elements. -/
def joinSep (sep : String) : List String → String
  | [] => ""
  | [x] => x
  | x :: y :: rest => x ++ sep ++ joinSep sep (y :: rest)

/-- `build_activity_fingerprint` from `src/discord/mod.rs`. -/
def build_activity_fingerprint (activities : List Activity) : String :=
  joinSep "||" (activities.map activity_fingerprint_part)

/-- Whether an `ActivityType` is in the secondary preferred-kind set of
`pick_primary_activity` (`Streaming | Listening | Watching | Competing`). -/
def is_secondary_kind : ActivityType → Bool
  | .streaming => true
  | .listening => true
  | .watching => true
  | .competing => true
  | _ => false

/-- `pick_primary_activity` from `src/discord/mod.rs`: first `Playing`
activity, else first of the secondary preferred kinds, else the first
activity (the `or_else` chain is rendered as nested matches). -/
def pick_primary_activity (activities : List Activity) : Option Activity :=
  match activities.find? (fun a => a.kind == ActivityType.playing) with
  | some a => some a
  | none =>
    match activities.find? (fun a => is_secondary_kind a.kind) with
    | some a => some a
    | none => activities.head?

/-- Accumulate decimal digits; any non-digit character fails the parse. -/
def parseDigitsGo : List Char → Nat → Option Nat
  | [], acc => some acc
  | c :: rest, acc =>
    if 48 ≤ c.toNat ∧ c.toNat ≤ 57 then
      parseDigitsGo rest (acc * 10 + (c.toNat - 48))
    else
      none

/-- Rust `str::parse::<u32>()` (an optional leading plus sign, then a
non-empty run of decimal digits, value bounded by `u32::MAX`). -/
def parseU32 (s : String) : Option Nat :=
  let t :=
    match s.data with
    | '+' :: rest => rest
    | l => l
  match t with
  | [] => none
  | _ =>
    match parseDigitsGo t 0 with
    | some n => if n ≤ 4294967295 then some n else none
    | none => none

/-- `parse_steam_asset_app_id` from `src/discord/mod.rs`
(`raw.strip_prefix("steam:")?.parse::<u32>().ok()`, the prefix match
rendered on the character list). -/
def parse_steam_asset_app_id (raw : String) : Option Nat :=
  match raw.data with
  | 's' :: 't' :: 'e' :: 'a' :: 'm' :: ':' :: rest => parseU32 (String.mk rest)
  | _ => none

/-- `extract_steam_app_id` from `src/discord/mod.rs`. -/
def extract_steam_app_id (a : Activity) : Option Nat :=
  a.assets.bind (fun assets =>
    match assets.large_image.bind parse_steam_asset_app_id with
    | some id => some id
    | none => assets.small_image.bind parse_steam_asset_app_id)

/-- `extract_activity_context` from `src/discord/mod.rs`. -/
def extract_activity_context (activities : List Activity) : Option DiscordActivityContext :=
  (pick_primary_activity activities).map (fun a =>
    { name := a.name
      details := a.details
      state := a.state
      steam_app_id := extract_steam_app_id a })

/-- The body of `PresenceEventHandler::presence_update` after target
filtering: extract the activity context and fingerprint from the raw
activity list, then run `handle_presence_update`. -/
def presence_update (h : PresenceEventHandler) (state : RuntimePresenceState)
    (guild_id : Option Nat) (raw_status : OnlineStatus) (activities : List Activity)
    (now : Int) : HandleResult :=
  handle_presence_update h state guild_id raw_status
    (extract_activity_context activities) (build_activity_fingerprint activities) now

/-- Rust `i64::saturating_sub` (the exact difference clamped to the
`i64` range). -/
def i64_saturating_sub (a b : Int) : Int :=
  max (-(2 ^ 63)) (min (a - b) (2 ^ 63 - 1))

/-- Rust `as u64` on an `i64` value: wrapping (two's-complement)
conversion, i.e. reduction modulo `2 ^ 64`. -/
def u64_of_i64 (x : Int) : Nat :=
  (x % (2 ^ 64)).toNat

/-- Rust `u64::saturating_mul`. -/
def u64_saturating_mul (a b : Nat) : Nat :=
  min (a * b) (2 ^ 64 - 1)

/-- Outcome of one reminder tick. -/
structure ReminderTickResult where
  state : RuntimePresenceState
  event : Option DiscordStatusChangedEvent
deriving DecidableEq, Repr

/-- The body of one iteration of `run_reminder_loop` from
`src/discord/mod.rs` (the state read-modify-write done under the lock,
with `Utc::now().timestamp()` passed as `now`). -/
def reminder_tick (interval_seconds : Nat) (target_user_id : Nat)
    (state : RuntimePresenceState) (now : Int) : ReminderTickResult :=
  if state.current_status.isNone || state.reminder_anchor.isNone then
    { state := state, event := none }
  else
    match state.reminder_anchor with
    | none => { state := state, event := none }
    | some anchor =>
      let current_status := state.current_status.getD DiscordStatus.unknown
      let elapsed := u64_of_i64 (i64_saturating_sub now anchor.started_at_unix)
      let sequence := elapsed / interval_seconds
      if sequence = 0 ∨ sequence ≤ anchor.last_sequence then
        { state := state, event := none }
      else
        { state := { state with reminder_anchor := some { anchor with last_sequence := sequence } }
          event := some (DiscordStatusChangedEvent.new target_user_id state.current_guild_id
            none current_status state.current_activity
            (some { elapsed_seconds := u64_saturating_mul sequence interval_seconds
                    interval_seconds := interval_seconds
                    sequence := sequence })
            now) }

/-- `StatusRecord` from `src/state_cache.rs` (`updated_at` as a unix
timestamp). -/
structure StatusRecord where
  status : DiscordStatus
  updated_at : Int
deriving DecidableEq, Repr

/-- The in-memory snapshot of `PersistentStatusCache`: a `HashMap`
modelled as an association list with distinct keys kept at the front on
insert (hash-map iteration order is unspecified upstream). -/
abbrev StatusMap := List (String × StatusRecord)

/-- `HashMap::get` on the snapshot. -/
def mapLookup (m : StatusMap) (key : String) : Option StatusRecord :=
  (m.find? (fun p => p.1 == key)).map (fun p => p.2)

/-- `HashMap::insert` on the snapshot (replace any existing binding). -/
def mapInsert (m : StatusMap) (key : String) (v : StatusRecord) : StatusMap :=
  (key, v) :: m.filter (fun p => !(p.1 == key))

/-- `StatusCacheFile` from `src/state_cache.rs`: the serialized document
`{version, records}`.  The serde JSON round-trip is treated as faithful:
a file holds the structured document it was serialized from. -/
structure StatusCacheFile where
  version : Nat
  records : StatusMap
deriving DecidableEq, Repr

/-- A file system mapping paths to whole-file contents; `none` means the
path does not exist.  Each primitive operation below is atomic. -/
def FS (α : Type) := String → Option α

/-- `fs::write`: create or truncate a file with the given contents. -/
def fsWrite {α : Type} (fs : FS α) (path : String) (contents : α) : FS α :=
  fun q => if q = path then some contents else fs q

/-- `fs::remove_file`. -/
def fsRemove {α : Type} (fs : FS α) (path : String) : FS α :=
  fun q => if q = path then none else fs q

/-- `fs::rename src dst`: the destination takes the source's contents
and the source disappears. -/
def fsRename {α : Type} (fs : FS α) (src dst : String) : FS α :=
  fun q => if q = dst then fs src else if q = src then none else fs q

/-- `write_file` from `src/state_cache.rs` as a file-system transformer:
write the serialized document to the temp path, remove the destination
if it exists, rename the temp file over the destination.  `temp` models
`path.with_extension("tmp")`; the `create_dir_all` call does not touch
file contents and is omitted. -/
def write_file {α : Type} (fs : FS α) (path temp : String) (doc : α) : FS α :=
  let fs1 := fsWrite fs temp doc
  let fs2 := if (fs1 path).isSome then fsRemove fs1 path else fs1
  fsRename fs2 temp path

/-- The file-system states after each successive step of `write_file`
(after the temp write, after the conditional removal of the destination,
and after the final rename). -/
def write_file_states {α : Type} (fs : FS α) (path temp : String) (doc : α) : List (FS α) :=
  let fs1 := fsWrite fs temp doc
  let fs2 := if (fs1 path).isSome then fsRemove fs1 path else fs1
  [fs1, fs2, fsRename fs2 temp path]

/-- `read_file` from `src/state_cache.rs`: a missing file yields the
empty map, an existing file yields its parsed records (parsing a file
this model wrote always succeeds, per the faithful-serde convention). -/
def read_file (fs : FS StatusCacheFile) (path : String) : StatusMap :=
  match fs path with
  | none => []
  | some doc => doc.records

/-- The pure state of a `PersistentStatusCache` from
`src/state_cache.rs`: the snapshot path, the derived temp path
(`path.with_extension("tmp")`), and the in-memory snapshot. -/
structure CacheModel where
  path : String
  tmp : String
  state : StatusMap
deriving Repr

/-- `PersistentStatusCache::load`: read the snapshot file into memory. -/
def PersistentStatusCache.load (path tmp : String) (fs : FS StatusCacheFile) : CacheModel :=
  { path := path, tmp := tmp, state := read_file fs path }

/-- `PersistentStatusCache::get_status` from `src/state_cache.rs`: the
in-memory snapshot first, then the durable tier (modelled as an optional
total lookup, a read error degrading to `none`), backfilling the
snapshot on a durable hit. -/
def get_status (c : CacheModel) (db : Option (String → Option DiscordStatus))
    (key : String) (now : Int) : Option DiscordStatus × CacheModel :=
  match mapLookup c.state key with
  | some record => (some record.status, c)
  | none =>
    match db with
    | none => (none, c)
    | some dbq =>
      match dbq key with
      | none => (none, c)
      | some s => (some s, { c with state := mapInsert c.state key { status := s, updated_at := now } })

/-- `PersistentStatusCache::set_status` from `src/state_cache.rs`:
insert into the in-memory snapshot, then synchronously rewrite the
snapshot file (the `file_write_ok` oracle injects the combined
spawn/join/write failure, which is propagated through `??`), then
best-effort write to the durable tier whose failure is logged and
swallowed (`db_present`/`db_write_ok` model that tier's configuration
and outcome). -/
def set_status (c : CacheModel) (key : String) (status : DiscordStatus) (now : Int)
    (fs : FS StatusCacheFile) (file_write_ok db_present db_write_ok : Bool) :
    CacheModel × FS StatusCacheFile × Except String Unit :=
  let state' := mapInsert c.state key { status := status, updated_at := now }
  let c' := { c with state := state' }
  if file_write_ok then
    (c', write_file fs c.path c.tmp { version := 1, records := state' }, Except.ok ())
  else
    (c', fs, Except.error "status cache write failed")

/-- `SteamGameDetails` from `src/steam.rs`. -/
structure SteamGameDetails where
  app_id : Nat
  name : String
  short_description : Option String
  current_players : Option Nat
deriving DecidableEq, Repr

/-- `MemoryCacheEntry` from `src/steam.rs` (`Instant` modelled as an
integer timeline). -/
structure MemoryCacheEntry where
  value : SteamGameDetails
  expires_at : Int
deriving DecidableEq, Repr

/-- The Steam memory cache `HashMap<u32, MemoryCacheEntry>` modelled as
an association list with distinct keys; `keys().next()` (the arbitrary
eviction choice) is modelled as the first entry. -/
abbrev MemCache := List (Nat × MemoryCacheEntry)

/-- `HashMap::get` on the memory cache. -/
def memLookup (cache : MemCache) (app_id : Nat) : Option MemoryCacheEntry :=
  (cache.find? (fun p => p.1 == app_id)).map (fun p => p.2)

/-- `SteamClient::get_from_memory_cache` from `src/steam.rs`: a hit
whose entry has expired is removed and reported as a miss. -/
def get_from_memory_cache (cache : MemCache) (now : Int) (app_id : Nat) :
    Option SteamGameDetails × MemCache :=
  match memLookup cache app_id with
  | none => (none, cache)
  | some entry =>
    if entry.expires_at ≤ now then
      (none, cache.filter (fun p => !(p.1 == app_id)))
    else
      (some entry.value, cache)

/-- `SteamClient::put_to_memory_cache` from `src/steam.rs`: sweep all
expired entries, evict one arbitrary entry when at capacity and the key
is new, then insert with expiry `now + ttl`. -/
def put_to_memory_cache (capacity : Nat) (ttl : Int) (cache : MemCache) (now : Int)
    (app_id : Nat) (value : SteamGameDetails) : MemCache :=
  let cache1 := cache.filter (fun p => decide (now < p.2.expires_at))
  let cache2 :=
    if capacity ≤ cache1.length ∧ ¬ (cache1.any (fun p => p.1 == app_id) = true) then
      match cache1.head? with
      | some p => cache1.filter (fun q => !(q.1 == p.1))
      | none => cache1
    else
      cache1
  (app_id, { value := value, expires_at := now + ttl }) :: cache2.filter (fun q => !(q.1 == app_id))

/-- Number of live (non-expired) entries of the memory cache at `now`. -/
def live_count (cache : MemCache) (now : Int) : Nat :=
  (cache.filter (fun p => decide (now < p.2.expires_at))).length

/-- The accumulator loop of `truncate_chars` from `src/steam.rs`. -/
def truncate_chars_go (max_chars : Nat) : List Char → Nat → String → String
  | [], _, out => out
  | ch :: rest, idx, out =>
    if max_chars ≤ idx then
      out ++ "..."
    else
      truncate_chars_go max_chars rest (idx + 1) (out.push ch)

/-- `truncate_chars` from `src/steam.rs`: copy characters while the
index is below `max_chars`; on the first index at or past the bound,
append the ellipsis marker and stop. -/
def truncate_chars (input : String) (max_chars : Nat) : String :=
  truncate_chars_go max_chars input.data 0 ""

/-! Theorems. -/

theorem truncate_chars_go_spec (max_chars : Nat) :
    ∀ (l : List Char) (idx : Nat) (out : String), idx ≤ max_chars →
      (truncate_chars_go max_chars l idx out).data =
        if l.length + idx ≤ max_chars then out.data ++ l
        else out.data ++ l.take (max_chars - idx) ++ "...".data := by
  intro l
  induction l with
  | nil =>
    intro idx out h
    simp [truncate_chars_go, h]
  | cons c rest ih =>
    intro idx out h
    by_cases hmax : max_chars ≤ idx
    · have hgo : truncate_chars_go max_chars (c :: rest) idx out = out ++ "..." := by
        simp [truncate_chars_go, hmax]
      rw [hgo, if_neg (show ¬ ((c :: rest).length + idx ≤ max_chars) by
        simp only [List.length_cons]; omega)]
      have hsub : max_chars - idx = 0 := by omega
      simp [hsub]
    · have hidx : idx < max_chars := Nat.lt_of_not_ge hmax
      have hrec : truncate_chars_go max_chars (c :: rest) idx out =
          truncate_chars_go max_chars rest (idx + 1) (out.push c) := by
        simp [truncate_chars_go, hmax]
      rw [hrec, ih (idx + 1) (out.push c) hidx]
      have hpush : (out.push c).data = out.data ++ [c] := rfl
      by_cases hfit : rest.length + (idx + 1) ≤ max_chars
      · rw [if_pos hfit, if_pos (show (c :: rest).length + idx ≤ max_chars by
          simp only [List.length_cons]; omega)]
        simp [hpush]
      · rw [if_neg hfit, if_neg (show ¬ ((c :: rest).length + idx ≤ max_chars) by
          simp only [List.length_cons]; omega)]
        have htake : (c :: rest).take (max_chars - idx) = c :: rest.take (max_chars - (idx + 1)) := by
          have hsub : max_chars - idx = (max_chars - (idx + 1)) + 1 := by omega
          rw [hsub, List.take_succ_cons]
        simp [hpush, htake]

/-- Claim C9: for `n > 0`, `truncate_chars` leaves a text of at most `n`
characters unchanged, and otherwise returns exactly the first `n`
characters followed by the ellipsis marker. -/
theorem c9_truncate_chars_spec (text : String) (n : Nat) (hn : 0 < n) :
    (text.length ≤ n → truncate_chars text n = text) ∧
    (n < text.length → (truncate_chars text n).data = text.data.take n ++ "...".data) := by
  have hld : text.data.length = text.length := rfl
  have hgo := truncate_chars_go_spec n text.data 0 "" (Nat.zero_le n)
  have hunfold : truncate_chars text n = truncate_chars_go n text.data 0 "" := rfl
  constructor
  · intro hle
    apply String.ext
    rw [hunfold, hgo, if_pos (show text.data.length + 0 ≤ n by omega)]
    simp
  · intro hgt
    rw [hunfold, hgo, if_neg (show ¬ (text.data.length + 0 ≤ n) by omega)]
    simp

/-- Witness for C9 at concrete inputs. -/
theorem c9_truncate_chars_spec_witness :
    truncate_chars "ab" 3 = "ab" ∧
    (truncate_chars "abcdef" 3).data = "abcdef".data.take 3 ++ "...".data :=
  ⟨(c9_truncate_chars_spec "ab" 3 (by decide)).1 (by decide),
   (c9_truncate_chars_spec "abcdef" 3 (by decide)).2 (by decide)⟩

/-- Claim C10: restoring a persisted status seeds the runtime state with
that status only (no activity, fingerprint or group scope), and a fresh
anchor keyed on the status and anchored at process start exists if and
only if reminders are enabled, the steam-only restriction is off and
rich-presence-only is off; with no restored status everything is unset. -/
theorem c10_initial_runtime_state (S : DiscordStatus) (rp : Bool)
    (rem : ReminderSettings) (now : Int) :
    build_initial_runtime_state (some S) rp rem now =
      { current_status := some S
        current_guild_id := none
        current_activity := none
        current_activity_fingerprint := none
        reminder_anchor :=
          if rem.enabled = true ∧ rem.steam_only = false ∧ rp = false then
            some { key := "status:" ++ S.display, started_at_unix := now, last_sequence := 0 }
          else none } ∧
    build_initial_runtime_state none rp rem now =
      { current_status := none
        current_guild_id := none
        current_activity := none
        current_activity_fingerprint := none
        reminder_anchor := none } := by
  constructor
  · rcases rem with ⟨en, im, so, ci⟩
    cases en <;> cases so <;> cases rp <;>
      simp [build_initial_runtime_state]
  · rcases rem with ⟨en, im, so, ci⟩
    cases en <;> cases so <;> cases rp <;>
      simp [build_initial_runtime_state]

/-- Claim C5: `set_status` updates the in-memory snapshot first and in
all cases, returns an error exactly when the snapshot-file write fails,
and its entire outcome is independent of the durable-tier configuration
and write outcome. -/
theorem c5_set_status_error_domains (c : CacheModel) (key : String)
    (status : DiscordStatus) (now : Int) (fs : FS StatusCacheFile)
    (fOk dbP dbOk dbP' dbOk' : Bool) :
    ((set_status c key status now fs fOk dbP dbOk).2.2 = Except.ok () ↔ fOk = true) ∧
    (set_status c key status now fs fOk dbP dbOk).1.state =
      mapInsert c.state key { status := status, updated_at := now } ∧
    set_status c key status now fs fOk dbP dbOk =
      set_status c key status now fs fOk dbP' dbOk' := by
  cases fOk <;> simp [set_status]

/-- Claim C2 failing input: one second of wall-clock regression past the
anchor start (`now = 9`, `anchor.started_at_unix = 10`).  The claim says
the elapsed seconds are clamped to be non-negative, which would give
`elapsed = 0`, `sequence = 0` and no reminder; the code instead wraps
the negative `i64` difference through the `as u64` cast to
`2 ^ 64 - 1`, computes an astronomically large sequence and fires a
reminder immediately. -/
theorem c2_reminder_wraps_on_clock_regression :
    u64_of_i64 (i64_saturating_sub 9 10) = 2 ^ 64 - 1 ∧
    (reminder_tick 1800 7
        { current_status := some DiscordStatus.online
          current_guild_id := none
          current_activity := none
          current_activity_fingerprint := some ""
          reminder_anchor := some { key := "status:online", started_at_unix := 10, last_sequence := 0 } }
        9).event =
      some (DiscordStatusChangedEvent.new 7 none none DiscordStatus.online none
        (some { elapsed_seconds := ((2 ^ 64 - 1) / 1800) * 1800
                interval_seconds := 1800
                sequence := (2 ^ 64 - 1) / 1800 })
        9) := by
  constructor
  · decide
  · decide

/-- Counterexample to claim C6 as stated: when the destination exists,
the step of `write_file` between the destination's removal and the
rename leaves the destination path holding neither the complete old
document nor the complete new document — it is missing. -/
theorem c6_counterexample :
    ¬ (∀ s ∈ write_file_states
          (fun q => if q = "state.json" then
            some ({ version := 1, records := [] } : StatusCacheFile) else none)
          "state.json" "state.tmp"
          ({ version := 1
             records := [("discord:1:*", { status := DiscordStatus.online, updated_at := 0 })] } :
            StatusCacheFile),
        s "state.json" = some ({ version := 1, records := [] } : StatusCacheFile) ∨
        s "state.json" =
          some ({ version := 1
                  records := [("discord:1:*", { status := DiscordStatus.online, updated_at := 0 })] } :
            StatusCacheFile)) := by
  intro hall
  have hstates : write_file_states
      (fun q => if q = "state.json" then
        some ({ version := 1, records := [] } : StatusCacheFile) else none)
      "state.json" "state.tmp"
      ({ version := 1
         records := [("discord:1:*", { status := DiscordStatus.online, updated_at := 0 })] } :
        StatusCacheFile) =
      [fsWrite (fun q => if q = "state.json" then
          some ({ version := 1, records := [] } : StatusCacheFile) else none) "state.tmp"
          { version := 1
            records := [("discord:1:*", { status := DiscordStatus.online, updated_at := 0 })] },
       fsRemove (fsWrite (fun q => if q = "state.json" then
          some ({ version := 1, records := [] } : StatusCacheFile) else none) "state.tmp"
          { version := 1
            records := [("discord:1:*", { status := DiscordStatus.online, updated_at := 0 })] })
          "state.json",
       fsRename (fsRemove (fsWrite (fun q => if q = "state.json" then
          some ({ version := 1, records := [] } : StatusCacheFile) else none) "state.tmp"
          { version := 1
            records := [("discord:1:*", { status := DiscordStatus.online, updated_at := 0 })] })
          "state.json") "state.tmp" "state.json"] := by
    rfl
  have hmid := hall _ (by rw [hstates]; exact List.mem_cons_of_mem _ (List.mem_cons_self _ _))
  simp [fsRemove] at hmid

theorem write_file_at_path {α : Type} (fs : FS α) (path temp : String) (doc : α)
    (hne : temp ≠ path) : write_file fs path temp doc path = some doc := by
  have h1t : fsWrite fs temp doc temp = some doc := by
    simp [fsWrite]
  show fsRename _ temp path path = some doc
  unfold fsRename
  rw [if_pos rfl]
  split
  · rw [show fsRemove (fsWrite fs temp doc) path temp = fsWrite fs temp doc temp by
      simp [fsRemove, hne], h1t]
  · exact h1t

/-- Claim C6 amended: every intermediate state of the snapshot-file
update leaves the destination holding the complete old document, the
complete new document, or (during the remove-then-rename window)
nothing at all — never a partial document — and the final state holds
the complete new document. -/
theorem c6_write_file_no_partial {α : Type} (fs : FS α) (path temp : String) (doc : α)
    (hne : temp ≠ path) :
    (∀ s ∈ write_file_states fs path temp doc,
        s path = fs path ∨ s path = some doc ∨ s path = none) ∧
    write_file fs path temp doc path = some doc := by
  have hpt : path ≠ temp := fun h => hne h.symm
  have h1 : fsWrite fs temp doc path = fs path := by
    simp [fsWrite, hpt]
  constructor
  · intro s hs
    simp only [write_file_states, List.mem_cons, List.not_mem_nil, or_false] at hs
    rcases hs with rfl | rfl | rfl
    · exact Or.inl h1
    · split
      · right; right
        simp [fsRemove]
      · exact Or.inl h1
    · right; left
      exact write_file_at_path fs path temp doc hne
  · exact write_file_at_path fs path temp doc hne

/-- Witness for the amended C6 at concrete inputs. -/
theorem c6_write_file_no_partial_witness :
    (∀ s ∈ write_file_states (fun _ => (none : Option Nat)) "a.json" "a.tmp" 5,
        s "a.json" = (fun _ => (none : Option Nat)) "a.json" ∨ s "a.json" = some 5 ∨
          s "a.json" = none) ∧
    write_file (fun _ => (none : Option Nat)) "a.json" "a.tmp" 5 "a.json" = some 5 :=
  c6_write_file_no_partial (fun _ => none) "a.json" "a.tmp" 5 (by decide)

theorem put_to_memory_cache_length_le (capacity : Nat) (ttl : Int) (cache : MemCache)
    (now : Int) (app_id : Nat) (value : SteamGameDetails) (hcap : 1 ≤ capacity)
    (hinv : (cache.filter (fun p => decide (now < p.2.expires_at))).length ≤ capacity) :
    (put_to_memory_cache capacity ttl cache now app_id value).length ≤ capacity := by
  simp only [put_to_memory_cache]
  rw [List.length_cons]
  by_cases hA : capacity ≤ (cache.filter (fun p => decide (now < p.2.expires_at))).length ∧
      ¬ ((cache.filter (fun p => decide (now < p.2.expires_at))).any
          (fun p => p.1 == app_id) = true)
  · rw [if_pos hA]
    obtain ⟨hA1, _⟩ := hA
    cases hc : cache.filter (fun p => decide (now < p.2.expires_at)) with
    | nil =>
      rw [hc] at hA1
      simp at hA1
      omega
    | cons q t =>
      rw [hc] at hinv
      simp only [hc, List.head?]
      have e1 : (q :: t).filter (fun r => !(r.1 == q.1)) = t.filter (fun r => !(r.1 == q.1)) := by
        simp [List.filter_cons]
      have b1 : (((q :: t).filter (fun r => !(r.1 == q.1))).filter
          (fun r => !(r.1 == app_id))).length ≤ t.length := by
        calc (((q :: t).filter (fun r => !(r.1 == q.1))).filter
              (fun r => !(r.1 == app_id))).length
            ≤ ((q :: t).filter (fun r => !(r.1 == q.1))).length := List.length_filter_le _ _
          _ = (t.filter (fun r => !(r.1 == q.1))).length := by rw [e1]
          _ ≤ t.length := List.length_filter_le _ _
      simp only [List.length_cons] at hinv
      omega
  · rw [if_neg hA]
    by_cases hany : (cache.filter (fun p => decide (now < p.2.expires_at))).any
        (fun p => p.1 == app_id) = true
    · have hlt : ((cache.filter (fun p => decide (now < p.2.expires_at))).filter
          (fun q => !(q.1 == app_id))).length <
          (cache.filter (fun p => decide (now < p.2.expires_at))).length := by
        rw [List.length_filter_lt_length_iff_exists]
        rw [List.any_eq_true] at hany
        obtain ⟨x, hx, hxa⟩ := hany
        exact ⟨x, hx, by simp [hxa]⟩
      omega
    · have hA1 : ¬ capacity ≤ (cache.filter (fun p => decide (now < p.2.expires_at))).length :=
        fun hge => hA ⟨hge, hany⟩
      have hle := List.length_filter_le (fun q => !(q.1 == app_id))
        (cache.filter (fun p => decide (now < p.2.expires_at)))
      omega

/-- Claim C7: a put first sweeps expired entries and evicts when at
capacity, so it never leaves more than `capacity` live entries (the
configuration validates `capacity ≥ 1`); and a get on an expired entry
reports a miss and removes the entry. -/
theorem c7_memory_cache_invariants (capacity : Nat) (ttl : Int) (cache : MemCache)
    (now : Int) (app_id : Nat) (value : SteamGameDetails) (k : Nat) (e : MemoryCacheEntry) :
    (1 ≤ capacity → live_count cache now ≤ capacity →
      live_count (put_to_memory_cache capacity ttl cache now app_id value) now ≤ capacity) ∧
    (memLookup cache k = some e → e.expires_at ≤ now →
      get_from_memory_cache cache now k = (none, cache.filter (fun p => !(p.1 == k)))) := by
  constructor
  · intro hcap hinv
    calc live_count (put_to_memory_cache capacity ttl cache now app_id value) now
        ≤ (put_to_memory_cache capacity ttl cache now app_id value).length :=
          List.length_filter_le _ _
      _ ≤ capacity := put_to_memory_cache_length_le capacity ttl cache now app_id value hcap hinv
  · intro hlook hexp
    unfold get_from_memory_cache
    rw [hlook]
    simp [hexp]

/-- Witness for C7: capacity one, a put of a new key on a full live
cache, and a get of an expired entry. -/
theorem c7_memory_cache_invariants_witness :
    live_count (put_to_memory_cache 1 60
      [(5, { value := { app_id := 5, name := "a", short_description := none,
                        current_players := none }, expires_at := 10 })] 0 6
      { app_id := 6, name := "b", short_description := none, current_players := none }) 0 ≤ 1 ∧
    get_from_memory_cache
      [(5, { value := { app_id := 5, name := "a", short_description := none,
                        current_players := none }, expires_at := 10 })] 10 5 =
      (none, []) :=
  ⟨(c7_memory_cache_invariants 1 60
      [(5, { value := { app_id := 5, name := "a", short_description := none,
                        current_players := none }, expires_at := 10 })] 0 6
      { app_id := 6, name := "b", short_description := none, current_players := none } 5
      { value := { app_id := 5, name := "a", short_description := none,
                   current_players := none }, expires_at := 10 }).1
     (by decide) (by decide),
   (c7_memory_cache_invariants 1 60
      [(5, { value := { app_id := 5, name := "a", short_description := none,
                        current_players := none }, expires_at := 10 })] 10 6
      { app_id := 6, name := "b", short_description := none, current_players := none } 5
      { value := { app_id := 5, name := "a", short_description := none,
                   current_players := none }, expires_at := 10 }).2
     (by decide) (by decide)⟩

theorem mapLookup_insert (m : StatusMap) (key : String) (v : StatusRecord) :
    mapLookup (mapInsert m key v) key = some v := by
  simp [mapLookup, mapInsert, List.find?_cons]

/-- Claim C8: a successful `set_status` followed by constructing a fresh
`PersistentStatusCache` from the same snapshot file (durable tier
absent) yields the stored status on `get_status`. -/
theorem c8_status_round_trip (c : CacheModel) (key : String) (status : DiscordStatus)
    (now now2 : Int) (fs : FS StatusCacheFile) (dbP dbOk : Bool)
    (hne : c.tmp ≠ c.path) :
    (get_status
        (PersistentStatusCache.load c.path c.tmp
          (set_status c key status now fs true dbP dbOk).2.1)
        none key now2).1 = some status := by
  have hw : (set_status c key status now fs true dbP dbOk).2.1 =
      write_file fs c.path c.tmp
        { version := 1, records := mapInsert c.state key { status := status, updated_at := now } } :=
    rfl
  have hat := write_file_at_path fs c.path c.tmp
    ({ version := 1, records := mapInsert c.state key { status := status, updated_at := now } } :
      StatusCacheFile) hne
  have hload : (PersistentStatusCache.load c.path c.tmp
      (set_status c key status now fs true dbP dbOk).2.1).state =
      mapInsert c.state key { status := status, updated_at := now } := by
    rw [PersistentStatusCache.load, hw, read_file, hat]
  unfold get_status
  rw [hload, mapLookup_insert]

/-- Witness for C8 at concrete inputs. -/
theorem c8_status_round_trip_witness :
    (get_status
        (PersistentStatusCache.load
          (CacheModel.mk "a.json" "a.tmp" []).path (CacheModel.mk "a.json" "a.tmp" []).tmp
          (set_status (CacheModel.mk "a.json" "a.tmp" []) "discord:1:*" DiscordStatus.online 0
            (fun _ => none) true false false).2.1)
        none "discord:1:*" 1).1 = some DiscordStatus.online :=
  c8_status_round_trip (CacheModel.mk "a.json" "a.tmp" []) "discord:1:*" DiscordStatus.online
    0 1 (fun _ => none) false false (by decide)

theorem handle_state_status (h : PresenceEventHandler) (st : RuntimePresenceState)
    (g : Option Nat) (raw : OnlineStatus) (act : Option DiscordActivityContext)
    (fp : String) (now : Int) :
    (handle_presence_update h st g raw act fp now).state.current_status =
      some (normalize_status raw) := rfl

theorem handle_state_fingerprint (h : PresenceEventHandler) (st : RuntimePresenceState)
    (g : Option Nat) (raw : OnlineStatus) (act : Option DiscordActivityContext)
    (fp : String) (now : Int) :
    (handle_presence_update h st g raw act fp now).state.current_activity_fingerprint =
      some fp := rfl

theorem handle_anchor (h : PresenceEventHandler) (st : RuntimePresenceState)
    (g : Option Nat) (raw : OnlineStatus) (act : Option DiscordActivityContext)
    (fp : String) (now : Int) :
    (handle_presence_update h st g raw act fp now).state.reminder_anchor =
      if st.reminder_anchor.map (fun anchor => anchor.key) ≠
          reminder_anchor_key h.reminder h.rich_presence_only (normalize_status raw) act then
        (reminder_anchor_key h.reminder h.rich_presence_only (normalize_status raw) act).map
          (fun key => { key := key, started_at_unix := now, last_sequence := 0 })
      else st.reminder_anchor := rfl

theorem handle_event (h : PresenceEventHandler) (st : RuntimePresenceState)
    (g : Option Nat) (raw : OnlineStatus) (act : Option DiscordActivityContext)
    (fp : String) (now : Int) :
    (handle_presence_update h st g raw act fp now).event =
      if st.current_status.isNone && !h.emit_initial_status then none
      else if !(should_emit_presence_event
          (status_changed_flag st.current_status (normalize_status raw))
          (activity_changed_flag st.current_activity_fingerprint fp)
          h.emit_on_activity_change h.rich_presence_only (!fp.isEmpty)
          h.emit_initial_status st.current_status.isSome) then none
      else some (DiscordStatusChangedEvent.new h.target_user_id g st.current_status
        (normalize_status raw) act none now) := rfl

/-- Claim C1: an observation emits an event exactly when the trigger
condition for the configured mode holds and the initial-status gate
passes, and a first observation with initial emission disabled records
the status silently. -/
theorem c1_emit_decision (h : PresenceEventHandler) (st : RuntimePresenceState)
    (g : Option Nat) (raw : OnlineStatus) (act : Option DiscordActivityContext)
    (fp : String) (now : Int) :
    ((handle_presence_update h st g raw act fp now).event.isSome = true ↔
      ((if h.rich_presence_only = true then
          h.emit_on_activity_change = true ∧
            activity_changed_flag st.current_activity_fingerprint fp = true ∧
            fp.isEmpty = false
        else
          status_changed_flag st.current_status (normalize_status raw) = true ∨
            (h.emit_on_activity_change = true ∧
              activity_changed_flag st.current_activity_fingerprint fp = true)) ∧
        (h.emit_initial_status = true ∨ st.current_status.isSome = true))) ∧
    (st.current_status = none → h.emit_initial_status = false →
      (handle_presence_update h st g raw act fp now).event = none ∧
      (handle_presence_update h st g raw act fp now).state.current_status =
        some (normalize_status raw)) := by
  constructor
  · rw [handle_event]
    cases hsc : status_changed_flag st.current_status (normalize_status raw) <;>
    cases hac : activity_changed_flag st.current_activity_fingerprint fp <;>
    cases hO : st.current_status <;>
    cases hrp : h.rich_presence_only <;>
    cases hei : h.emit_initial_status <;>
    cases heo : h.emit_on_activity_change <;>
    cases hfe : fp.isEmpty <;>
    simp [should_emit_presence_event]
  · intro h0 hei
    refine ⟨?_, handle_state_status h st g raw act fp now⟩
    rw [handle_event, h0, hei]
    simp

/-- Witness for C1: a first observation with initial emission disabled
records the status and emits nothing. -/
theorem c1_emit_decision_witness :
    (handle_presence_update
        { target_user_id := 1, target_guild_id := none, emit_initial_status := false
          emit_on_activity_change := true, rich_presence_only := false
          reminder := { enabled := false, interval_minutes := 30, steam_only := false
                        check_interval_seconds := 30 } }
        { current_status := none, current_guild_id := none, current_activity := none
          current_activity_fingerprint := none, reminder_anchor := none }
        none OnlineStatus.online none "" 0).event = none ∧
    (handle_presence_update
        { target_user_id := 1, target_guild_id := none, emit_initial_status := false
          emit_on_activity_change := true, rich_presence_only := false
          reminder := { enabled := false, interval_minutes := 30, steam_only := false
                        check_interval_seconds := 30 } }
        { current_status := none, current_guild_id := none, current_activity := none
          current_activity_fingerprint := none, reminder_anchor := none }
        none OnlineStatus.online none "" 0).state.current_status =
      some (normalize_status OnlineStatus.online) :=
  (c1_emit_decision
    { target_user_id := 1, target_guild_id := none, emit_initial_status := false
      emit_on_activity_change := true, rich_presence_only := false
      reminder := { enabled := false, interval_minutes := 30, steam_only := false
                    check_interval_seconds := 30 } }
    { current_status := none, current_guild_id := none, current_activity := none
      current_activity_fingerprint := none, reminder_anchor := none }
    none OnlineStatus.online none "" 0).2 rfl rfl

/-- Claim C3: the derived reminder anchor key follows the configured
policy exactly, and the stored anchor is replaced by a fresh anchor
(or cleared) precisely when the derived key differs from the stored
anchor's key. -/
theorem c3_anchor_policy (h : PresenceEventHandler) (st : RuntimePresenceState)
    (g : Option Nat) (raw : OnlineStatus) (fp : String) (now : Int)
    (r : ReminderSettings) (rp : Bool) (s : DiscordStatus)
    (act : Option DiscordActivityContext) :
    (r.enabled = false → reminder_anchor_key r rp s act = none) ∧
    (rp = true → act = none → reminder_anchor_key r rp s act = none) ∧
    (r.enabled = true → ¬ (rp = true ∧ act = none) → r.steam_only = true →
      reminder_anchor_key r rp s act =
        (act.bind (fun a => a.steam_app_id)).map
          (fun app_id => "steam:" ++ toString app_id ++ ":" ++ s.display)) ∧
    (r.enabled = true → ¬ (rp = true ∧ act = none) → r.steam_only = false →
      reminder_anchor_key r rp s act = some ("status:" ++ s.display)) ∧
    ((handle_presence_update h st g raw act fp now).state.reminder_anchor =
      if st.reminder_anchor.map (fun anchor => anchor.key) ≠
          reminder_anchor_key h.reminder h.rich_presence_only (normalize_status raw) act then
        (reminder_anchor_key h.reminder h.rich_presence_only (normalize_status raw) act).map
          (fun key => { key := key, started_at_unix := now, last_sequence := 0 })
      else st.reminder_anchor) := by
  have hcondOf : ¬ (rp = true ∧ act = none) → (rp && act.isNone) = false := by
    intro hne
    cases hrp : rp
    · rfl
    · cases hact : act with
      | none => exact absurd ⟨hrp, hact⟩ hne
      | some a => simp
  refine ⟨?_, ?_, ?_, ?_, handle_anchor h st g raw act fp now⟩
  · intro he
    simp [reminder_anchor_key, he]
  · intro hrp hact
    cases he : r.enabled <;> simp [reminder_anchor_key, he, hrp, hact]
  · intro he hne hso
    simp [reminder_anchor_key, he, hcondOf hne, hso]
  · intro he hne hso
    simp [reminder_anchor_key, he, hcondOf hne, hso]

/-- Witness for C3: reminders disabled yield no key; steam-only with a
steam activity yields the steam key; steam-only off yields the status
key. -/
theorem c3_anchor_policy_witness :
    reminder_anchor_key
        { enabled := false, interval_minutes := 30, steam_only := false
          check_interval_seconds := 30 } false DiscordStatus.online none = none ∧
    reminder_anchor_key
        { enabled := true, interval_minutes := 30, steam_only := true
          check_interval_seconds := 30 } false DiscordStatus.online
        (some { name := "Dota 2", details := none, state := none, steam_app_id := some 570 }) =
      ((some { name := "Dota 2", details := none, state := none, steam_app_id := some 570 } :
          Option DiscordActivityContext).bind (fun a => a.steam_app_id)).map
        (fun app_id => "steam:" ++ toString app_id ++ ":" ++ DiscordStatus.online.display) ∧
    reminder_anchor_key
        { enabled := true, interval_minutes := 30, steam_only := false
          check_interval_seconds := 30 } false DiscordStatus.idle none =
      some ("status:" ++ DiscordStatus.idle.display) :=
  ⟨(c3_anchor_policy
      { target_user_id := 1, target_guild_id := none, emit_initial_status := true
        emit_on_activity_change := true, rich_presence_only := false
        reminder := { enabled := false, interval_minutes := 30, steam_only := false
                      check_interval_seconds := 30 } }
      { current_status := none, current_guild_id := none, current_activity := none
        current_activity_fingerprint := none, reminder_anchor := none }
      none OnlineStatus.online "" 0
      { enabled := false, interval_minutes := 30, steam_only := false
        check_interval_seconds := 30 } false DiscordStatus.online none).1 rfl,
   (c3_anchor_policy
      { target_user_id := 1, target_guild_id := none, emit_initial_status := true
        emit_on_activity_change := true, rich_presence_only := false
        reminder := { enabled := false, interval_minutes := 30, steam_only := false
                      check_interval_seconds := 30 } }
      { current_status := none, current_guild_id := none, current_activity := none
        current_activity_fingerprint := none, reminder_anchor := none }
      none OnlineStatus.online "" 0
      { enabled := true, interval_minutes := 30, steam_only := true
        check_interval_seconds := 30 } false DiscordStatus.online
      (some { name := "Dota 2", details := none, state := none,
              steam_app_id := some 570 })).2.2.1 rfl (by decide) rfl,
   (c3_anchor_policy
      { target_user_id := 1, target_guild_id := none, emit_initial_status := true
        emit_on_activity_change := true, rich_presence_only := false
        reminder := { enabled := false, interval_minutes := 30, steam_only := false
                      check_interval_seconds := 30 } }
      { current_status := none, current_guild_id := none, current_activity := none
        current_activity_fingerprint := none, reminder_anchor := none }
      none OnlineStatus.online "" 0
      { enabled := true, interval_minutes := 30, steam_only := false
        check_interval_seconds := 30 } false DiscordStatus.idle none).2.2.2.1 rfl
     (by decide) rfl⟩

theorem activity_fingerprint_part_length (a : Activity) :
    1 ≤ (activity_fingerprint_part a).length := by
  unfold activity_fingerprint_part
  simp only [String.length_append]
  have : ("|" : String).length = 1 := rfl
  omega

theorem fingerprint_empty_iff (l : List Activity) :
    build_activity_fingerprint l = "" ↔ l = [] := by
  constructor
  · intro hfp
    cases l with
    | nil => rfl
    | cons a rest =>
      exfalso
      have hlen : 1 ≤ (build_activity_fingerprint (a :: rest)).length := by
        unfold build_activity_fingerprint
        simp only [List.map_cons]
        cases hr : rest.map activity_fingerprint_part with
        | nil =>
          show 1 ≤ (joinSep "||" [activity_fingerprint_part a]).length
          exact activity_fingerprint_part_length a
        | cons x xs =>
          show 1 ≤ (joinSep "||" (activity_fingerprint_part a :: x :: xs)).length
          have := activity_fingerprint_part_length a
          simp only [joinSep, String.length_append]
          omega
      rw [hfp] at hlen
      simp at hlen
  · intro hl
    subst hl
    rfl

theorem extract_isNone_eq_decide (l : List Activity) :
    (extract_activity_context l).isNone = decide (l = []) := by
  cases l with
  | nil => rfl
  | cons a rest =>
    have hpick : (pick_primary_activity (a :: rest)).isSome = true := by
      unfold pick_primary_activity
      cases hf : List.find? (fun x => x.kind == ActivityType.playing) (a :: rest) with
      | some x => rfl
      | none =>
        cases hf2 : List.find? (fun x => is_secondary_kind x.kind) (a :: rest) with
        | some x => rfl
        | none => rfl
    unfold extract_activity_context
    rcases hp : pick_primary_activity (a :: rest) with _ | x
    · rw [hp] at hpick
      simp at hpick
    · simp

theorem anchor_key_after (h : PresenceEventHandler) (st : RuntimePresenceState)
    (g : Option Nat) (raw : OnlineStatus) (act : Option DiscordActivityContext)
    (fp : String) (now : Int) :
    (handle_presence_update h st g raw act fp now).state.reminder_anchor.map
      (fun anchor => anchor.key) =
      reminder_anchor_key h.reminder h.rich_presence_only (normalize_status raw) act := by
  rw [handle_anchor]
  split
  · cases hk : reminder_anchor_key h.reminder h.rich_presence_only (normalize_status raw) act <;>
      simp [hk]
  · next hne => exact not_not.mp hne

theorem anchor_key_eq_of (r : ReminderSettings) (rp : Bool) (s : DiscordStatus)
    (act1 act2 : Option DiscordActivityContext) (hso : r.steam_only = false)
    (hiso : act1.isNone = act2.isNone) :
    reminder_anchor_key r rp s act1 = reminder_anchor_key r rp s act2 := by
  unfold reminder_anchor_key
  rw [hso, hiso]
  simp

/-- Claim C4 amended: a second consecutive observation with the same
normalized status and the same activity fingerprint never emits an
event; outside the steam-only reminder restriction it also leaves the
reminder anchor untouched (under steam-only a fingerprint collision
between different activity lists can change the derived steam key and
rewrite the anchor). -/
theorem c4_duplicate_observation (h : PresenceEventHandler) (s0 : RuntimePresenceState)
    (g1 g2 : Option Nat) (raw1 raw2 : OnlineStatus) (l1 l2 : List Activity) (t1 t2 : Int)
    (hstat : normalize_status raw2 = normalize_status raw1)
    (hfp : build_activity_fingerprint l2 = build_activity_fingerprint l1) :
    (presence_update h (presence_update h s0 g1 raw1 l1 t1).state g2 raw2 l2 t2).event = none ∧
    (h.reminder.steam_only = false →
      (presence_update h (presence_update h s0 g1 raw1 l1 t1).state g2 raw2 l2 t2).state.reminder_anchor =
        (presence_update h s0 g1 raw1 l1 t1).state.reminder_anchor) := by
  simp only [presence_update]
  constructor
  · rw [handle_event, handle_state_status, handle_state_fingerprint]
    simp [status_changed_flag, activity_changed_flag, hstat, hfp, should_emit_presence_event]
  · intro hso
    have hiso : (extract_activity_context l1).isNone = (extract_activity_context l2).isNone := by
      rw [extract_isNone_eq_decide, extract_isNone_eq_decide]
      refine decide_eq_decide.mpr ⟨?_, ?_⟩
      · intro h1
        exact (fingerprint_empty_iff l2).1 (hfp.trans ((fingerprint_empty_iff l1).2 h1))
      · intro h2
        exact (fingerprint_empty_iff l1).1 (hfp.symm.trans ((fingerprint_empty_iff l2).2 h2))
    have hk12 : reminder_anchor_key h.reminder h.rich_presence_only (normalize_status raw2)
        (extract_activity_context l2) =
        reminder_anchor_key h.reminder h.rich_presence_only (normalize_status raw1)
        (extract_activity_context l1) := by
      rw [hstat]
      exact (anchor_key_eq_of h.reminder h.rich_presence_only (normalize_status raw1)
        (extract_activity_context l1) (extract_activity_context l2) hso hiso).symm
    rw [handle_anchor, if_neg]
    rw [anchor_key_after, hk12]
    exact fun hcontra => hcontra rfl

/-- Witness for the amended C4: the same activity list observed twice
with the same status emits nothing and keeps the anchor. -/
theorem c4_duplicate_observation_witness :
    (presence_update
        { target_user_id := 1, target_guild_id := none, emit_initial_status := true
          emit_on_activity_change := true, rich_presence_only := false
          reminder := { enabled := true, interval_minutes := 30, steam_only := false
                        check_interval_seconds := 30 } }
        (presence_update
          { target_user_id := 1, target_guild_id := none, emit_initial_status := true
            emit_on_activity_change := true, rich_presence_only := false
            reminder := { enabled := true, interval_minutes := 30, steam_only := false
                          check_interval_seconds := 30 } }
          { current_status := none, current_guild_id := none, current_activity := none
            current_activity_fingerprint := none, reminder_anchor := none }
          none OnlineStatus.online [] 100).state
        none OnlineStatus.online [] 200).event = none ∧
    (presence_update
        { target_user_id := 1, target_guild_id := none, emit_initial_status := true
          emit_on_activity_change := true, rich_presence_only := false
          reminder := { enabled := true, interval_minutes := 30, steam_only := false
                        check_interval_seconds := 30 } }
        (presence_update
          { target_user_id := 1, target_guild_id := none, emit_initial_status := true
            emit_on_activity_change := true, rich_presence_only := false
            reminder := { enabled := true, interval_minutes := 30, steam_only := false
                          check_interval_seconds := 30 } }
          { current_status := none, current_guild_id := none, current_activity := none
            current_activity_fingerprint := none, reminder_anchor := none }
          none OnlineStatus.online [] 100).state
        none OnlineStatus.online [] 200).state.reminder_anchor =
      (presence_update
        { target_user_id := 1, target_guild_id := none, emit_initial_status := true
          emit_on_activity_change := true, rich_presence_only := false
          reminder := { enabled := true, interval_minutes := 30, steam_only := false
                        check_interval_seconds := 30 } }
        { current_status := none, current_guild_id := none, current_activity := none
          current_activity_fingerprint := none, reminder_anchor := none }
        none OnlineStatus.online [] 100).state.reminder_anchor :=
  ⟨(c4_duplicate_observation
      { target_user_id := 1, target_guild_id := none, emit_initial_status := true
        emit_on_activity_change := true, rich_presence_only := false
        reminder := { enabled := true, interval_minutes := 30, steam_only := false
                      check_interval_seconds := 30 } }
      { current_status := none, current_guild_id := none, current_activity := none
        current_activity_fingerprint := none, reminder_anchor := none }
      none none OnlineStatus.online OnlineStatus.online [] [] 100 200 rfl rfl).1,
   (c4_duplicate_observation
      { target_user_id := 1, target_guild_id := none, emit_initial_status := true
        emit_on_activity_change := true, rich_presence_only := false
        reminder := { enabled := true, interval_minutes := 30, steam_only := false
                      check_interval_seconds := 30 } }
      { current_status := none, current_guild_id := none, current_activity := none
        current_activity_fingerprint := none, reminder_anchor := none }
      none none OnlineStatus.online OnlineStatus.online [] [] 100 200 rfl rfl).2 rfl⟩

/-- Counterexample to claim C4 as stated: the fingerprint encoding joins
raw activity fields with unescaped separators, so the two-activity list
`[Playing "n" with steam asset 570, Watching "m"]` and the one-activity
list `[Playing "n|None|None|None|steam:570|-||Watching|m"]` have the
same fingerprint while their primary activities carry different steam
ids.  Under steam-only reminders the second observation still emits
nothing, but its derived anchor key changes from `steam:570:online` to
none, so the stored anchor is rewritten rather than left unchanged. -/
theorem c4_counterexample :
    build_activity_fingerprint
        [{ kind := ActivityType.playing
           name := "n|None|None|None|steam:570|-||Watching|m"
           details := none, state := none, application_id := none, assets := none }] =
      build_activity_fingerprint
        [{ kind := ActivityType.playing, name := "n", details := none, state := none
           application_id := none
           assets := some { large_image := some "steam:570", small_image := none } },
         { kind := ActivityType.watching, name := "m", details := none, state := none
           application_id := none, assets := none }] ∧
    (presence_update
        { target_user_id := 1, target_guild_id := none, emit_initial_status := true
          emit_on_activity_change := true, rich_presence_only := false
          reminder := { enabled := true, interval_minutes := 30, steam_only := true
                        check_interval_seconds := 30 } }
        (presence_update
          { target_user_id := 1, target_guild_id := none, emit_initial_status := true
            emit_on_activity_change := true, rich_presence_only := false
            reminder := { enabled := true, interval_minutes := 30, steam_only := true
                          check_interval_seconds := 30 } }
          { current_status := none, current_guild_id := none, current_activity := none
            current_activity_fingerprint := none, reminder_anchor := none }
          none OnlineStatus.online
          [{ kind := ActivityType.playing, name := "n", details := none, state := none
             application_id := none
             assets := some { large_image := some "steam:570", small_image := none } },
           { kind := ActivityType.watching, name := "m", details := none, state := none
             application_id := none, assets := none }] 100).state
        none OnlineStatus.online
        [{ kind := ActivityType.playing
           name := "n|None|None|None|steam:570|-||Watching|m"
           details := none, state := none, application_id := none, assets := none }]
        200).event = none ∧
    (presence_update
        { target_user_id := 1, target_guild_id := none, emit_initial_status := true
          emit_on_activity_change := true, rich_presence_only := false
          reminder := { enabled := true, interval_minutes := 30, steam_only := true
                        check_interval_seconds := 30 } }
        (presence_update
          { target_user_id := 1, target_guild_id := none, emit_initial_status := true
            emit_on_activity_change := true, rich_presence_only := false
            reminder := { enabled := true, interval_minutes := 30, steam_only := true
                          check_interval_seconds := 30 } }
          { current_status := none, current_guild_id := none, current_activity := none
            current_activity_fingerprint := none, reminder_anchor := none }
          none OnlineStatus.online
          [{ kind := ActivityType.playing, name := "n", details := none, state := none
             application_id := none
             assets := some { large_image := some "steam:570", small_image := none } },
           { kind := ActivityType.watching, name := "m", details := none, state := none
             application_id := none, assets := none }] 100).state
        none OnlineStatus.online
        [{ kind := ActivityType.playing
           name := "n|None|None|None|steam:570|-||Watching|m"
           details := none, state := none, application_id := none, assets := none }]
        200).state.reminder_anchor = none ∧
    (presence_update
        { target_user_id := 1, target_guild_id := none, emit_initial_status := true
          emit_on_activity_change := true, rich_presence_only := false
          reminder := { enabled := true, interval_minutes := 30, steam_only := true
                        check_interval_seconds := 30 } }
        { current_status := none, current_guild_id := none, current_activity := none
          current_activity_fingerprint := none, reminder_anchor := none }
        none OnlineStatus.online
        [{ kind := ActivityType.playing, name := "n", details := none, state := none
           application_id := none
           assets := some { large_image := some "steam:570", small_image := none } },
         { kind := ActivityType.watching, name := "m", details := none, state := none
           application_id := none, assets := none }] 100).state.reminder_anchor =
      some { key := "steam:570:online", started_at_unix := 100, last_sequence := 0 } ∧
    (none : Option ReminderAnchor) ≠
      some { key := "steam:570:online", started_at_unix := 100, last_sequence := 0 } := by
  refine ⟨by decide, by decide, rfl, rfl, by decide⟩

end StatusHub
